import Mathlib

set_option maxRecDepth 100000

/-!
Shallow embedding of the SDL display driver (`sdl.c` and the keymap
translation unit) of TinyEMU's presentation front-end, together with
proofs of the behavioural properties claimed by its specification.

Machine integers are modelled as `Nat`/`Int` (no value in this driver
ever approaches an overflow boundary), fallible paths (`exit(...)`)
are modelled with `Except Nat` carrying the exit status, and the
stream of events sent to the guest VM is made explicit as a list.
-/

namespace TinyEMU

/-! ### External constants

`NR_KEYS` comes from `sdl2-keymap.h`, which the repository ships but is
not among the given sources; the spec describes the table as sized by
the host's maximum scancode value, which for SDL2 is
`SDL_NUM_SCANCODES = 512`.  None of the proofs below depend on the
concrete value beyond it bounding the table.  The `SDL_SCANCODE_*` and
`KEY_*` constants carry their standard values from SDL2's
`SDL_scancode.h` and Linux's `linux-event-codes.h`. -/

def NR_KEYS : Nat := 512

def SDL_SCANCODE_UNKNOWN : Nat := 0
def SDL_SCANCODE_A : Nat := 4
def SDL_SCANCODE_B : Nat := 5
def SDL_SCANCODE_C : Nat := 6
def SDL_SCANCODE_D : Nat := 7
def SDL_SCANCODE_E : Nat := 8
def SDL_SCANCODE_F : Nat := 9
def SDL_SCANCODE_G : Nat := 10
def SDL_SCANCODE_H : Nat := 11
def SDL_SCANCODE_I : Nat := 12
def SDL_SCANCODE_J : Nat := 13
def SDL_SCANCODE_K : Nat := 14
def SDL_SCANCODE_L : Nat := 15
def SDL_SCANCODE_M : Nat := 16
def SDL_SCANCODE_N : Nat := 17
def SDL_SCANCODE_O : Nat := 18
def SDL_SCANCODE_P : Nat := 19
def SDL_SCANCODE_Q : Nat := 20
def SDL_SCANCODE_R : Nat := 21
def SDL_SCANCODE_S : Nat := 22
def SDL_SCANCODE_T : Nat := 23
def SDL_SCANCODE_U : Nat := 24
def SDL_SCANCODE_V : Nat := 25
def SDL_SCANCODE_W : Nat := 26
def SDL_SCANCODE_X : Nat := 27
def SDL_SCANCODE_Y : Nat := 28
def SDL_SCANCODE_Z : Nat := 29
def SDL_SCANCODE_1 : Nat := 30
def SDL_SCANCODE_2 : Nat := 31
def SDL_SCANCODE_3 : Nat := 32
def SDL_SCANCODE_4 : Nat := 33
def SDL_SCANCODE_5 : Nat := 34
def SDL_SCANCODE_6 : Nat := 35
def SDL_SCANCODE_7 : Nat := 36
def SDL_SCANCODE_8 : Nat := 37
def SDL_SCANCODE_9 : Nat := 38
def SDL_SCANCODE_0 : Nat := 39
def SDL_SCANCODE_RETURN : Nat := 40
def SDL_SCANCODE_ESCAPE : Nat := 41
def SDL_SCANCODE_BACKSPACE : Nat := 42
def SDL_SCANCODE_TAB : Nat := 43
def SDL_SCANCODE_SPACE : Nat := 44
def SDL_SCANCODE_MINUS : Nat := 45
def SDL_SCANCODE_EQUALS : Nat := 46
def SDL_SCANCODE_LEFTBRACKET : Nat := 47
def SDL_SCANCODE_RIGHTBRACKET : Nat := 48
def SDL_SCANCODE_BACKSLASH : Nat := 49
def SDL_SCANCODE_NONUSHASH : Nat := 50
def SDL_SCANCODE_SEMICOLON : Nat := 51
def SDL_SCANCODE_APOSTROPHE : Nat := 52
def SDL_SCANCODE_GRAVE : Nat := 53
def SDL_SCANCODE_COMMA : Nat := 54
def SDL_SCANCODE_PERIOD : Nat := 55
def SDL_SCANCODE_SLASH : Nat := 56
def SDL_SCANCODE_CAPSLOCK : Nat := 57
def SDL_SCANCODE_F1 : Nat := 58
def SDL_SCANCODE_F2 : Nat := 59
def SDL_SCANCODE_F3 : Nat := 60
def SDL_SCANCODE_F4 : Nat := 61
def SDL_SCANCODE_F5 : Nat := 62
def SDL_SCANCODE_F6 : Nat := 63
def SDL_SCANCODE_F7 : Nat := 64
def SDL_SCANCODE_F8 : Nat := 65
def SDL_SCANCODE_F9 : Nat := 66
def SDL_SCANCODE_F10 : Nat := 67
def SDL_SCANCODE_F11 : Nat := 68
def SDL_SCANCODE_F12 : Nat := 69
def SDL_SCANCODE_PRINTSCREEN : Nat := 70
def SDL_SCANCODE_SCROLLLOCK : Nat := 71
def SDL_SCANCODE_PAUSE : Nat := 72
def SDL_SCANCODE_INSERT : Nat := 73
def SDL_SCANCODE_HOME : Nat := 74
def SDL_SCANCODE_PAGEUP : Nat := 75
def SDL_SCANCODE_DELETE : Nat := 76
def SDL_SCANCODE_END : Nat := 77
def SDL_SCANCODE_PAGEDOWN : Nat := 78
def SDL_SCANCODE_RIGHT : Nat := 79
def SDL_SCANCODE_LEFT : Nat := 80
def SDL_SCANCODE_DOWN : Nat := 81
def SDL_SCANCODE_UP : Nat := 82
def SDL_SCANCODE_NUMLOCKCLEAR : Nat := 83
def SDL_SCANCODE_KP_DIVIDE : Nat := 84
def SDL_SCANCODE_KP_MULTIPLY : Nat := 85
def SDL_SCANCODE_KP_MINUS : Nat := 86
def SDL_SCANCODE_KP_PLUS : Nat := 87
def SDL_SCANCODE_KP_ENTER : Nat := 88
def SDL_SCANCODE_KP_1 : Nat := 89
def SDL_SCANCODE_KP_2 : Nat := 90
def SDL_SCANCODE_KP_3 : Nat := 91
def SDL_SCANCODE_KP_4 : Nat := 92
def SDL_SCANCODE_KP_5 : Nat := 93
def SDL_SCANCODE_KP_6 : Nat := 94
def SDL_SCANCODE_KP_7 : Nat := 95
def SDL_SCANCODE_KP_8 : Nat := 96
def SDL_SCANCODE_KP_9 : Nat := 97
def SDL_SCANCODE_KP_0 : Nat := 98
def SDL_SCANCODE_KP_PERIOD : Nat := 99
def SDL_SCANCODE_NONUSBACKSLASH : Nat := 100
def SDL_SCANCODE_POWER : Nat := 102
def SDL_SCANCODE_KP_EQUALS : Nat := 103
def SDL_SCANCODE_F13 : Nat := 104
def SDL_SCANCODE_F14 : Nat := 105
def SDL_SCANCODE_F15 : Nat := 106
def SDL_SCANCODE_F16 : Nat := 107
def SDL_SCANCODE_F17 : Nat := 108
def SDL_SCANCODE_F18 : Nat := 109
def SDL_SCANCODE_F19 : Nat := 110
def SDL_SCANCODE_F20 : Nat := 111
def SDL_SCANCODE_F21 : Nat := 112
def SDL_SCANCODE_F22 : Nat := 113
def SDL_SCANCODE_F23 : Nat := 114
def SDL_SCANCODE_F24 : Nat := 115
def SDL_SCANCODE_HELP : Nat := 117
def SDL_SCANCODE_MENU : Nat := 118
def SDL_SCANCODE_SELECT : Nat := 119
def SDL_SCANCODE_STOP : Nat := 120
def SDL_SCANCODE_AGAIN : Nat := 121
def SDL_SCANCODE_UNDO : Nat := 122
def SDL_SCANCODE_CUT : Nat := 123
def SDL_SCANCODE_COPY : Nat := 124
def SDL_SCANCODE_PASTE : Nat := 125
def SDL_SCANCODE_FIND : Nat := 126
def SDL_SCANCODE_MUTE : Nat := 127
def SDL_SCANCODE_VOLUMEUP : Nat := 128
def SDL_SCANCODE_VOLUMEDOWN : Nat := 129
def SDL_SCANCODE_KP_COMMA : Nat := 133
def SDL_SCANCODE_KP_EQUALSAS400 : Nat := 134
def SDL_SCANCODE_ALTERASE : Nat := 153
def SDL_SCANCODE_SYSREQ : Nat := 154
def SDL_SCANCODE_CANCEL : Nat := 155
def SDL_SCANCODE_CLEAR : Nat := 156
def SDL_SCANCODE_RETURN2 : Nat := 158
def SDL_SCANCODE_LCTRL : Nat := 224
def SDL_SCANCODE_LSHIFT : Nat := 225
def SDL_SCANCODE_LALT : Nat := 226
def SDL_SCANCODE_LGUI : Nat := 227
def SDL_SCANCODE_RCTRL : Nat := 228
def SDL_SCANCODE_RSHIFT : Nat := 229
def SDL_SCANCODE_RALT : Nat := 230

def KEY_RESERVED : Nat := 0
def KEY_ESC : Nat := 1
def KEY_1 : Nat := 2
def KEY_2 : Nat := 3
def KEY_3 : Nat := 4
def KEY_4 : Nat := 5
def KEY_5 : Nat := 6
def KEY_6 : Nat := 7
def KEY_7 : Nat := 8
def KEY_8 : Nat := 9
def KEY_9 : Nat := 10
def KEY_0 : Nat := 11
def KEY_MINUS : Nat := 12
def KEY_EQUAL : Nat := 13
def KEY_BACKSPACE : Nat := 14
def KEY_TAB : Nat := 15
def KEY_Q : Nat := 16
def KEY_W : Nat := 17
def KEY_E : Nat := 18
def KEY_R : Nat := 19
def KEY_T : Nat := 20
def KEY_Y : Nat := 21
def KEY_U : Nat := 22
def KEY_I : Nat := 23
def KEY_O : Nat := 24
def KEY_P : Nat := 25
def KEY_LEFTBRACE : Nat := 26
def KEY_RIGHTBRACE : Nat := 27
def KEY_ENTER : Nat := 28
def KEY_LEFTCTRL : Nat := 29
def KEY_A : Nat := 30
def KEY_S : Nat := 31
def KEY_D : Nat := 32
def KEY_F : Nat := 33
def KEY_G : Nat := 34
def KEY_H : Nat := 35
def KEY_J : Nat := 36
def KEY_K : Nat := 37
def KEY_L : Nat := 38
def KEY_SEMICOLON : Nat := 39
def KEY_APOSTROPHE : Nat := 40
def KEY_GRAVE : Nat := 41
def KEY_LEFTSHIFT : Nat := 42
def KEY_BACKSLASH : Nat := 43
def KEY_Z : Nat := 44
def KEY_X : Nat := 45
def KEY_C : Nat := 46
def KEY_V : Nat := 47
def KEY_B : Nat := 48
def KEY_N : Nat := 49
def KEY_M : Nat := 50
def KEY_COMMA : Nat := 51
def KEY_DOT : Nat := 52
def KEY_SLASH : Nat := 53
def KEY_RIGHTSHIFT : Nat := 54
def KEY_KPASTERISK : Nat := 55
def KEY_LEFTALT : Nat := 56
def KEY_SPACE : Nat := 57
def KEY_CAPSLOCK : Nat := 58
def KEY_F1 : Nat := 59
def KEY_F2 : Nat := 60
def KEY_F3 : Nat := 61
def KEY_F4 : Nat := 62
def KEY_F5 : Nat := 63
def KEY_F6 : Nat := 64
def KEY_F7 : Nat := 65
def KEY_F8 : Nat := 66
def KEY_F9 : Nat := 67
def KEY_F10 : Nat := 68
def KEY_NUMLOCK : Nat := 69
def KEY_SCROLLLOCK : Nat := 70
def KEY_KP7 : Nat := 71
def KEY_KP8 : Nat := 72
def KEY_KP9 : Nat := 73
def KEY_KPMINUS : Nat := 74
def KEY_KP4 : Nat := 75
def KEY_KP5 : Nat := 76
def KEY_KP6 : Nat := 77
def KEY_KPPLUS : Nat := 78
def KEY_KP1 : Nat := 79
def KEY_KP2 : Nat := 80
def KEY_KP3 : Nat := 81
def KEY_KP0 : Nat := 82
def KEY_KPDOT : Nat := 83
def KEY_F11 : Nat := 87
def KEY_F12 : Nat := 88
def KEY_KPENTER : Nat := 96
def KEY_RIGHTCTRL : Nat := 97
def KEY_KPSLASH : Nat := 98
def KEY_SYSRQ : Nat := 99
def KEY_RIGHTALT : Nat := 100
def KEY_HOME : Nat := 102
def KEY_UP : Nat := 103
def KEY_PAGEUP : Nat := 104
def KEY_LEFT : Nat := 105
def KEY_RIGHT : Nat := 106
def KEY_END : Nat := 107
def KEY_DOWN : Nat := 108
def KEY_PAGEDOWN : Nat := 109
def KEY_INSERT : Nat := 110
def KEY_DELETE : Nat := 111
def KEY_MUTE : Nat := 113
def KEY_VOLUMEDOWN : Nat := 114
def KEY_VOLUMEUP : Nat := 115
def KEY_POWER : Nat := 116
def KEY_KPEQUAL : Nat := 117
def KEY_PAUSE : Nat := 119
def KEY_KPCOMMA : Nat := 121
def KEY_STOP : Nat := 128
def KEY_AGAIN : Nat := 129
def KEY_UNDO : Nat := 131
def KEY_COPY : Nat := 133
def KEY_PASTE : Nat := 135
def KEY_FIND : Nat := 136
def KEY_CUT : Nat := 137
def KEY_HELP : Nat := 138
def KEY_MENU : Nat := 139
def KEY_F13 : Nat := 183
def KEY_F14 : Nat := 184
def KEY_F15 : Nat := 185
def KEY_F16 : Nat := 186
def KEY_F17 : Nat := 187
def KEY_F18 : Nat := 188
def KEY_F19 : Nat := 189
def KEY_F20 : Nat := 190
def KEY_F21 : Nat := 191
def KEY_F22 : Nat := 192
def KEY_F23 : Nat := 193
def KEY_F24 : Nat := 194
def KEY_PRINT : Nat := 210
def KEY_ALTERASE : Nat := 222
def KEY_CANCEL : Nat := 223
def KEY_LEFTMETA : Nat := 125
def KEY_SELECT : Nat := 353
def KEY_CLEAR : Nat := 355

/-! ### The scancode translation table

`keymapEntries` lists, in source order, the designated initializers of
`unsigned short keymap[NR_KEYS]` from the keymap translation unit.
`keymapInit` gives the resulting C array semantics: a listed index
holds its listed value, every other index holds 0.  (No index is
listed twice, so first-match lookup agrees with the C initializer.)
`keymap` is the array itself. -/

def keymapEntries : List (Nat × Nat) :=
  [(SDL_SCANCODE_UNKNOWN, KEY_RESERVED),
   (SDL_SCANCODE_A, KEY_A),
   (SDL_SCANCODE_B, KEY_B),
   (SDL_SCANCODE_C, KEY_C),
   (SDL_SCANCODE_D, KEY_D),
   (SDL_SCANCODE_E, KEY_E),
   (SDL_SCANCODE_F, KEY_F),
   (SDL_SCANCODE_G, KEY_G),
   (SDL_SCANCODE_H, KEY_H),
   (SDL_SCANCODE_I, KEY_I),
   (SDL_SCANCODE_J, KEY_J),
   (SDL_SCANCODE_K, KEY_K),
   (SDL_SCANCODE_L, KEY_L),
   (SDL_SCANCODE_M, KEY_M),
   (SDL_SCANCODE_N, KEY_N),
   (SDL_SCANCODE_O, KEY_O),
   (SDL_SCANCODE_P, KEY_P),
   (SDL_SCANCODE_Q, KEY_Q),
   (SDL_SCANCODE_R, KEY_R),
   (SDL_SCANCODE_S, KEY_S),
   (SDL_SCANCODE_T, KEY_T),
   (SDL_SCANCODE_U, KEY_U),
   (SDL_SCANCODE_V, KEY_V),
   (SDL_SCANCODE_W, KEY_W),
   (SDL_SCANCODE_X, KEY_X),
   (SDL_SCANCODE_Y, KEY_Y),
   (SDL_SCANCODE_Z, KEY_Z),
   (SDL_SCANCODE_1, KEY_1),
   (SDL_SCANCODE_2, KEY_2),
   (SDL_SCANCODE_3, KEY_3),
   (SDL_SCANCODE_4, KEY_4),
   (SDL_SCANCODE_5, KEY_5),
   (SDL_SCANCODE_6, KEY_6),
   (SDL_SCANCODE_7, KEY_7),
   (SDL_SCANCODE_8, KEY_8),
   (SDL_SCANCODE_9, KEY_9),
   (SDL_SCANCODE_0, KEY_0),
   (SDL_SCANCODE_RETURN, KEY_ENTER),
   (SDL_SCANCODE_ESCAPE, KEY_ESC),
   (SDL_SCANCODE_BACKSPACE, KEY_BACKSPACE),
   (SDL_SCANCODE_TAB, KEY_TAB),
   (SDL_SCANCODE_SPACE, KEY_SPACE),
   (SDL_SCANCODE_MINUS, KEY_MINUS),
   (SDL_SCANCODE_EQUALS, KEY_EQUAL),
   (SDL_SCANCODE_LEFTBRACKET, KEY_LEFTBRACE),
   (SDL_SCANCODE_RIGHTBRACKET, KEY_RIGHTBRACE),
   (SDL_SCANCODE_BACKSLASH, KEY_BACKSLASH),
   (SDL_SCANCODE_NONUSHASH, KEY_BACKSLASH),
   (SDL_SCANCODE_SEMICOLON, KEY_SEMICOLON),
   (SDL_SCANCODE_APOSTROPHE, KEY_APOSTROPHE),
   (SDL_SCANCODE_GRAVE, KEY_GRAVE),
   (SDL_SCANCODE_COMMA, KEY_COMMA),
   (SDL_SCANCODE_PERIOD, KEY_DOT),
   (SDL_SCANCODE_SLASH, KEY_SLASH),
   (SDL_SCANCODE_CAPSLOCK, KEY_CAPSLOCK),
   (SDL_SCANCODE_F1, KEY_F1),
   (SDL_SCANCODE_F2, KEY_F2),
   (SDL_SCANCODE_F3, KEY_F3),
   (SDL_SCANCODE_F4, KEY_F4),
   (SDL_SCANCODE_F5, KEY_F5),
   (SDL_SCANCODE_F6, KEY_F6),
   (SDL_SCANCODE_F7, KEY_F7),
   (SDL_SCANCODE_F8, KEY_F8),
   (SDL_SCANCODE_F9, KEY_F9),
   (SDL_SCANCODE_F10, KEY_F10),
   (SDL_SCANCODE_F11, KEY_F11),
   (SDL_SCANCODE_F12, KEY_F12),
   (SDL_SCANCODE_PRINTSCREEN, KEY_PRINT),
   (SDL_SCANCODE_SCROLLLOCK, KEY_SCROLLLOCK),
   (SDL_SCANCODE_PAUSE, KEY_PAUSE),
   (SDL_SCANCODE_INSERT, KEY_INSERT),
   (SDL_SCANCODE_HOME, KEY_HOME),
   (SDL_SCANCODE_PAGEUP, KEY_PAGEUP),
   (SDL_SCANCODE_DELETE, KEY_DELETE),
   (SDL_SCANCODE_END, KEY_END),
   (SDL_SCANCODE_PAGEDOWN, KEY_PAGEDOWN),
   (SDL_SCANCODE_RIGHT, KEY_RIGHT),
   (SDL_SCANCODE_LEFT, KEY_LEFT),
   (SDL_SCANCODE_DOWN, KEY_DOWN),
   (SDL_SCANCODE_UP, KEY_UP),
   (SDL_SCANCODE_NUMLOCKCLEAR, KEY_NUMLOCK),
   (SDL_SCANCODE_KP_DIVIDE, KEY_KPSLASH),
   (SDL_SCANCODE_KP_MULTIPLY, KEY_KPASTERISK),
   (SDL_SCANCODE_KP_MINUS, KEY_KPMINUS),
   (SDL_SCANCODE_KP_PLUS, KEY_KPPLUS),
   (SDL_SCANCODE_KP_ENTER, KEY_KPENTER),
   (SDL_SCANCODE_KP_1, KEY_KP1),
   (SDL_SCANCODE_KP_2, KEY_KP2),
   (SDL_SCANCODE_KP_3, KEY_KP3),
   (SDL_SCANCODE_KP_4, KEY_KP4),
   (SDL_SCANCODE_KP_5, KEY_KP5),
   (SDL_SCANCODE_KP_6, KEY_KP6),
   (SDL_SCANCODE_KP_7, KEY_KP7),
   (SDL_SCANCODE_KP_8, KEY_KP8),
   (SDL_SCANCODE_KP_9, KEY_KP9),
   (SDL_SCANCODE_KP_0, KEY_KP0),
   (SDL_SCANCODE_KP_PERIOD, KEY_KPDOT),
   (SDL_SCANCODE_NONUSBACKSLASH, KEY_BACKSLASH),
   (SDL_SCANCODE_POWER, KEY_POWER),
   (SDL_SCANCODE_KP_EQUALS, KEY_KPEQUAL),
   (SDL_SCANCODE_F13, KEY_F13),
   (SDL_SCANCODE_F14, KEY_F14),
   (SDL_SCANCODE_F15, KEY_F15),
   (SDL_SCANCODE_F16, KEY_F16),
   (SDL_SCANCODE_F17, KEY_F17),
   (SDL_SCANCODE_F18, KEY_F18),
   (SDL_SCANCODE_F19, KEY_F19),
   (SDL_SCANCODE_F20, KEY_F20),
   (SDL_SCANCODE_F21, KEY_F21),
   (SDL_SCANCODE_F22, KEY_F22),
   (SDL_SCANCODE_F23, KEY_F23),
   (SDL_SCANCODE_F24, KEY_F24),
   (SDL_SCANCODE_HELP, KEY_HELP),
   (SDL_SCANCODE_MENU, KEY_MENU),
   (SDL_SCANCODE_SELECT, KEY_SELECT),
   (SDL_SCANCODE_STOP, KEY_STOP),
   (SDL_SCANCODE_AGAIN, KEY_AGAIN),
   (SDL_SCANCODE_UNDO, KEY_UNDO),
   (SDL_SCANCODE_CUT, KEY_CUT),
   (SDL_SCANCODE_COPY, KEY_COPY),
   (SDL_SCANCODE_PASTE, KEY_PASTE),
   (SDL_SCANCODE_FIND, KEY_FIND),
   (SDL_SCANCODE_MUTE, KEY_MUTE),
   (SDL_SCANCODE_VOLUMEUP, KEY_VOLUMEUP),
   (SDL_SCANCODE_VOLUMEDOWN, KEY_VOLUMEDOWN),
   (SDL_SCANCODE_KP_COMMA, KEY_KPCOMMA),
   (SDL_SCANCODE_KP_EQUALSAS400, KEY_KPEQUAL),
   (SDL_SCANCODE_ALTERASE, KEY_ALTERASE),
   (SDL_SCANCODE_SYSREQ, KEY_SYSRQ),
   (SDL_SCANCODE_CANCEL, KEY_CANCEL),
   (SDL_SCANCODE_CLEAR, KEY_CLEAR),
   (SDL_SCANCODE_RETURN2, KEY_ENTER),
   (SDL_SCANCODE_LCTRL, KEY_LEFTCTRL),
   (SDL_SCANCODE_LSHIFT, KEY_LEFTSHIFT),
   (SDL_SCANCODE_LALT, KEY_LEFTALT),
   (SDL_SCANCODE_LGUI, KEY_LEFTMETA),
   (SDL_SCANCODE_RCTRL, KEY_RIGHTCTRL),
   (SDL_SCANCODE_RSHIFT, KEY_RIGHTSHIFT),
   (SDL_SCANCODE_RALT, KEY_RIGHTALT)]

def keymapInit (sc : Nat) : Nat :=
  ((keymapEntries.find? (fun p => p.1 = sc)).map Prod.snd).getD 0

def keymap : List Nat := (List.range NR_KEYS).map keymapInit

theorem keymap_length : keymap.length = NR_KEYS := by
  simp [keymap]

/-- Function `sdl_get_keycode` (non-Windows branch): return the table entry for
an in-range scancode and 0 otherwise. -/
def sdl_get_keycode (scancode : Nat) : Nat :=
  if h : scancode < NR_KEYS then
    keymap.get ⟨scancode, keymap_length ▸ h⟩
  else
    0

/-! ### The input event dispatcher (key handling) -/

/-- An event sent to the guest VM: `vm_send_key_event(m, pressed,
keycode)` or `vm_send_mouse_event(m, x, y, dz, buttons)`. -/
inductive GuestEvent where
  | key (pressed : Bool) (keycode : Nat)
  | mouse (x y dz : Int) (buttons : Nat)
deriving DecidableEq, Repr

/-- The fields of `SDL_KeyboardEvent` that the driver reads: whether
`type == SDL_KEYDOWN`, and `keysym.scancode`. -/
structure KeyboardEvent where
  isDown : Bool
  scancode : Nat
deriving DecidableEq, Repr

/-- The initial (all-zero) contents of `uint8_t key_pressed[NR_KEYS]`. -/
def initKeys : Nat → Bool := fun _ => false

/-- One iteration of the loop body of `sdl_reset_keys` at index `i`:
if `key_pressed[i]` holds, send a release event and clear the entry. -/
def resetStep (acc : (Nat → Bool) × List GuestEvent) (i : Nat) :
    (Nat → Bool) × List GuestEvent :=
  if acc.1 i then
    (Function.update acc.1 i false, acc.2 ++ [GuestEvent.key false i])
  else
    acc

/-- Function `sdl_reset_keys`: for `i` from 1 to `NR_KEYS - 1`, release every key
marked pressed and clear its entry.  Returns the new `key_pressed`
contents paired with the events sent to the guest. -/
def sdl_reset_keys (kp : Nat → Bool) : (Nat → Bool) × List GuestEvent :=
  (List.range' 1 (NR_KEYS - 1)).foldl resetStep (kp, [])

/-- Function `sdl_handle_key_event`: translate the scancode; a mapped Caps
Lock/Num Lock keycode (`0x3a`/`0x45`) yields a synthesized press+release
pair; any other mapped keycode updates `key_pressed` (when in range) and
forwards the event; an unmapped key-up triggers `sdl_reset_keys`; an
unmapped key-down does nothing. -/
def sdl_handle_key_event (ev : KeyboardEvent) (kp : Nat → Bool) :
    (Nat → Bool) × List GuestEvent :=
  let keycode := sdl_get_keycode ev.scancode
  if keycode ≠ 0 then
    if keycode = 0x3a ∨ keycode = 0x45 then
      (kp, [GuestEvent.key true keycode, GuestEvent.key false keycode])
    else
      ((if keycode < NR_KEYS then Function.update kp keycode ev.isDown else kp),
       [GuestEvent.key ev.isDown keycode])
  else if ev.isDown = false then
    sdl_reset_keys kp
  else
    (kp, [])

/-- The `key_pressed` state after feeding a sequence of host key-down
events (with the given scancodes) to the dispatcher, starting from the
initial all-false state. -/
def runKeyDowns (scs : List Nat) : Nat → Bool :=
  scs.foldl (fun kp sc => (sdl_handle_key_event ⟨true, sc⟩ kp).1) initKeys

/-- Characterization of the `sdl_reset_keys` loop over any
duplicate-free index list: every listed index is cleared, and a release
is appended for exactly the listed indices that were pressed, in list
order. -/
theorem foldl_resetStep (l : List Nat) (hnd : l.Nodup) (kp : Nat → Bool)
    (tr : List GuestEvent) :
    l.foldl resetStep (kp, tr) =
      ((fun i => if i ∈ l then false else kp i),
       tr ++ (l.filter (fun i => kp i)).map (fun i => GuestEvent.key false i)) := by
  induction l generalizing kp tr with
  | nil => simp
  | cons a l ih =>
    have hal : a ∉ l := (List.nodup_cons.mp hnd).1
    have hnd' : l.Nodup := (List.nodup_cons.mp hnd).2
    by_cases ha : kp a
    · rw [List.foldl_cons, resetStep, if_pos ha, ih hnd']
      refine Prod.ext ?_ ?_
      · funext i
        by_cases hil : i ∈ l
        · simp [hil]
        · by_cases hia : i = a
          · subst hia
            simp [hil, Function.update_apply]
          · simp [hil, hia, Function.update_apply]
      · have hfil : l.filter (fun i => Function.update kp a false i) =
            l.filter (fun i => kp i) := by
          refine List.filter_congr ?_
          intro x hx
          have : x ≠ a := fun h => hal (h ▸ hx)
          simp [Function.update_apply, this]
        simp [hfil, List.filter_cons, ha]
    · rw [List.foldl_cons, resetStep, if_neg ha, ih hnd']
      refine Prod.ext ?_ ?_
      · funext i
        by_cases hil : i ∈ l
        · simp [hil]
        · by_cases hia : i = a
          · subst hia
            simp [hil, Bool.eq_false_iff.mpr ha]
          · simp [hil, hia]
      · simp [List.filter_cons, ha]

/-- The dispatcher's `key_pressed` invariant: only indices in
`[1, NR_KEYS)` are ever marked pressed. -/
def keysInv (kp : Nat → Bool) : Prop :=
  ∀ i, kp i = true → 1 ≤ i ∧ i < NR_KEYS

theorem keysInv_init : keysInv initKeys := by
  intro i h
  simp [initKeys] at h

theorem keysInv_reset (kp : Nat → Bool) (h : keysInv kp) :
    keysInv (sdl_reset_keys kp).1 := by
  intro i hi
  rw [sdl_reset_keys, foldl_resetStep _ (List.nodup_range' 1 (NR_KEYS - 1)) kp []] at hi
  by_cases hm : i ∈ List.range' 1 (NR_KEYS - 1)
  · simp [hm] at hi
  · simp [hm] at hi
    exact h i hi

theorem keysInv_handle (ev : KeyboardEvent) (kp : Nat → Bool) (h : keysInv kp) :
    keysInv (sdl_handle_key_event ev kp).1 := by
  rw [sdl_handle_key_event]
  by_cases h0 : sdl_get_keycode ev.scancode ≠ 0
  · rw [if_pos h0]
    by_cases hlock : sdl_get_keycode ev.scancode = 0x3a ∨
        sdl_get_keycode ev.scancode = 0x45
    · rw [if_pos hlock]
      exact h
    · rw [if_neg hlock]
      by_cases hlt : sdl_get_keycode ev.scancode < NR_KEYS
      · simp only [if_pos hlt]
        intro i hi
        by_cases hie : i = sdl_get_keycode ev.scancode
        · subst hie
          exact ⟨Nat.one_le_iff_ne_zero.mpr (by simpa using h0), hlt⟩
        · rw [Function.update_apply, if_neg hie] at hi
          exact h i hi
      · simp only [if_neg hlt]
        exact h
  · rw [if_neg h0]
    by_cases hup : ev.isDown = false
    · rw [if_pos hup]
      exact keysInv_reset kp h
    · rw [if_neg hup]
      exact h

theorem keysInv_runKeyDowns (scs : List Nat) : keysInv (runKeyDowns scs) := by
  rw [runKeyDowns]
  generalize hkp : initKeys = kp
  have h : keysInv kp := hkp ▸ keysInv_init
  clear hkp
  induction scs generalizing kp with
  | nil => exact h
  | cons sc scs ih =>
    rw [List.foldl_cons]
    exact ih _ (keysInv_handle _ _ h)

/-- C1: after any sequence of key-down events from the initial state, a
key-release event whose scancode is unmapped (translates to 0) emits
exactly one release per currently-pressed keycode, in ascending keycode
order, and clears `key_pressed` entirely; a key-press event with an
unmapped scancode emits nothing and leaves the state unchanged. -/
theorem C1_unmapped_scancode_reset (scs : List Nat) (sc : Nat)
    (hun : sdl_get_keycode sc = 0) :
    (sdl_handle_key_event ⟨false, sc⟩ (runKeyDowns scs)).2 =
      ((List.range NR_KEYS).filter (fun i => runKeyDowns scs i)).map
        (fun i => GuestEvent.key false i) ∧
    (∀ i, (sdl_handle_key_event ⟨false, sc⟩ (runKeyDowns scs)).1 i = false) ∧
    sdl_handle_key_event ⟨true, sc⟩ (runKeyDowns scs) = (runKeyDowns scs, []) := by
  have hinv := keysInv_runKeyDowns scs
  have hreset : sdl_handle_key_event ⟨false, sc⟩ (runKeyDowns scs) =
      sdl_reset_keys (runKeyDowns scs) := by
    rw [sdl_handle_key_event]
    simp [hun]
  have hchar := foldl_resetStep (List.range' 1 (NR_KEYS - 1))
    (List.nodup_range' 1 (NR_KEYS - 1)) (runKeyDowns scs) []
  have hkp0 : runKeyDowns scs 0 = false := by
    by_contra h
    have := (hinv 0 (Bool.of_not_eq_false h)).1
    omega
  have hrange : List.range NR_KEYS = 0 :: List.range' 1 (NR_KEYS - 1) := by
    rw [List.range_eq_range']
    have : NR_KEYS = (NR_KEYS - 1) + 1 := by decide
    rw [this, List.range'_succ]
    simp
  refine ⟨?_, ?_, ?_⟩
  · rw [hreset, sdl_reset_keys, hchar, hrange]
    simp [List.filter_cons, hkp0]
  · intro i
    rw [hreset, sdl_reset_keys, hchar]
    by_cases hm : i ∈ List.range' 1 (NR_KEYS - 1)
    · simp [hm]
    · simp only [hm, if_neg, if_false]
      by_contra h
      have hi := hinv i (Bool.of_not_eq_false h)
      have : i ∈ List.range' 1 (NR_KEYS - 1) := by
        rw [List.mem_range'_1]
        omega
      exact hm this
  · rw [sdl_handle_key_event]
    simp [hun]

theorem C1_unmapped_scancode_reset_witness :
    (sdl_handle_key_event ⟨false, 3⟩ (runKeyDowns [SDL_SCANCODE_A])).2 =
      [GuestEvent.key false KEY_A] ∧
    (sdl_handle_key_event ⟨false, 3⟩ (runKeyDowns [SDL_SCANCODE_A])).1 KEY_A = false := by
  have h := C1_unmapped_scancode_reset [SDL_SCANCODE_A] 3 (by decide)
  exact ⟨h.1.trans (by decide), h.2.1 KEY_A⟩

/-- C2: a host key event whose scancode translates to the guest Caps
Lock keycode (`0x3a`) or Num Lock keycode (`0x45`) always produces a
press immediately followed by a release to the guest — whether the host
event was a press or a release — and `key_pressed` is unchanged. -/
theorem C2_lock_key_press_release (ev : KeyboardEvent) (kp : Nat → Bool)
    (h : sdl_get_keycode ev.scancode = KEY_CAPSLOCK ∨
         sdl_get_keycode ev.scancode = KEY_NUMLOCK) :
    sdl_handle_key_event ev kp =
      (kp, [GuestEvent.key true (sdl_get_keycode ev.scancode),
            GuestEvent.key false (sdl_get_keycode ev.scancode)]) := by
  rw [sdl_handle_key_event]
  rcases h with h | h <;> rw [h] <;> simp [KEY_CAPSLOCK, KEY_NUMLOCK]

theorem C2_lock_key_press_release_witness :
    sdl_handle_key_event ⟨true, SDL_SCANCODE_CAPSLOCK⟩ initKeys =
      (initKeys, [GuestEvent.key true KEY_CAPSLOCK,
                  GuestEvent.key false KEY_CAPSLOCK]) ∧
    sdl_handle_key_event ⟨false, SDL_SCANCODE_NUMLOCKCLEAR⟩ initKeys =
      (initKeys, [GuestEvent.key true KEY_NUMLOCK,
                  GuestEvent.key false KEY_NUMLOCK]) := by
  have h1 := C2_lock_key_press_release ⟨true, SDL_SCANCODE_CAPSLOCK⟩ initKeys
    (Or.inl (by decide))
  have h2 := C2_lock_key_press_release ⟨false, SDL_SCANCODE_NUMLOCKCLEAR⟩ initKeys
    (Or.inr (by decide))
  rw [show sdl_get_keycode (KeyboardEvent.mk true SDL_SCANCODE_CAPSLOCK).scancode =
      KEY_CAPSLOCK from by decide] at h1
  rw [show sdl_get_keycode (KeyboardEvent.mk false SDL_SCANCODE_NUMLOCKCLEAR).scancode =
      KEY_NUMLOCK from by decide] at h2
  exact ⟨h1, h2⟩

/-- C3: scancode translation is total and safe — any scancode at or
beyond `NR_KEYS` yields 0 with no table access, an in-range scancode
yields exactly the (in-bounds) table entry, and the translation is a
deterministic function of the scancode. -/
theorem C3_translation_total_safe (sc : Nat) :
    (NR_KEYS ≤ sc → sdl_get_keycode sc = 0) ∧
    (∀ h : sc < NR_KEYS, sdl_get_keycode sc = keymap.get ⟨sc, keymap_length ▸ h⟩) ∧
    (∀ sc2, sc = sc2 → sdl_get_keycode sc = sdl_get_keycode sc2) := by
  refine ⟨?_, ?_, ?_⟩
  · intro h
    rw [sdl_get_keycode, dif_neg (Nat.not_lt.mpr h)]
  · intro h
    rw [sdl_get_keycode, dif_pos h]
  · rintro sc2 rfl
    rfl

theorem C3_translation_total_safe_witness :
    sdl_get_keycode 600 = 0 ∧
    sdl_get_keycode SDL_SCANCODE_BACKSLASH = KEY_BACKSLASH :=
  ⟨(C3_translation_total_safe 600).1 (by decide),
   ((C3_translation_total_safe SDL_SCANCODE_BACKSLASH).2.1 (by decide)).trans
     (by decide)⟩

/-- C4: the table collapses the two extra-backslash scancodes onto the
main backslash keycode, the two keypad-equals scancodes onto the keypad
equals keycode, and the two enter scancodes onto the enter keycode. -/
theorem C4_keymap_collapses :
    sdl_get_keycode SDL_SCANCODE_NONUSHASH = KEY_BACKSLASH ∧
    sdl_get_keycode SDL_SCANCODE_NONUSBACKSLASH = KEY_BACKSLASH ∧
    sdl_get_keycode SDL_SCANCODE_BACKSLASH = KEY_BACKSLASH ∧
    sdl_get_keycode SDL_SCANCODE_KP_EQUALS = KEY_KPEQUAL ∧
    sdl_get_keycode SDL_SCANCODE_KP_EQUALSAS400 = KEY_KPEQUAL ∧
    sdl_get_keycode SDL_SCANCODE_RETURN = KEY_ENTER ∧
    sdl_get_keycode SDL_SCANCODE_RETURN2 = KEY_ENTER := by
  decide

/-! ### The input event dispatcher (mouse handling)

C `int` division truncates toward zero, which is `Int.tdiv`. -/

def SDL_BUTTON_LEFT : Nat := 1
def SDL_BUTTON_MIDDLE : Nat := 2
def SDL_BUTTON_RIGHT : Nat := 3

/-- The `SDL_BUTTON(X)` mask macro: `1 << (X - 1)`. -/
def SDL_BUTTON (x : Nat) : Nat := 1 <<< (x - 1)

/-- The button-mask computation inlined in `sdl_send_mouse_event`:
left → bit 0, right → bit 1, middle → bit 2. -/
def mouse_buttons (state : Nat) : Nat :=
  (if state &&& SDL_BUTTON SDL_BUTTON_LEFT ≠ 0 then 1 <<< 0 else 0) |||
  (if state &&& SDL_BUTTON SDL_BUTTON_RIGHT ≠ 0 then 1 <<< 1 else 0) |||
  (if state &&& SDL_BUTTON SDL_BUTTON_MIDDLE ≠ 0 then 1 <<< 2 else 0)

/-- Function `sdl_send_mouse_event`: in absolute mode rescale window pixel
coordinates by `(x1 * 32768) / screen_width` (and likewise for `y`);
in relative mode forward `x1`, `y1` unchanged. -/
def sdl_send_mouse_event (screen_width screen_height : Int)
    (x1 y1 dz : Int) (state : Nat) (is_absolute : Bool) : GuestEvent :=
  let x := if is_absolute then Int.tdiv (x1 * 32768) screen_width else x1
  let y := if is_absolute then Int.tdiv (y1 * 32768) screen_height else y1
  GuestEvent.mouse x y dz (mouse_buttons state)

/-- The fields of `SDL_MouseMotionEvent` that the driver reads. -/
structure MouseMotionEvent where
  x : Int
  y : Int
  xrel : Int
  yrel : Int
  state : Nat
deriving DecidableEq, Repr

/-- Function `sdl_handle_mouse_motion_event`: choose window coordinates or raw
deltas according to the VM-reported pointer mode, then forward them
with a zero wheel delta. -/
def sdl_handle_mouse_motion_event (screen_width screen_height : Int)
    (is_absolute : Bool) (ev : MouseMotionEvent) : GuestEvent :=
  if is_absolute then
    sdl_send_mouse_event screen_width screen_height ev.x ev.y 0 ev.state is_absolute
  else
    sdl_send_mouse_event screen_width screen_height ev.xrel ev.yrel 0 ev.state is_absolute

/-- The x coordinate a guest mouse event carries. -/
def GuestEvent.mouseX : GuestEvent → Int
  | .mouse x _ _ _ => x
  | .key _ _ => 0

/-- C5: absolute-mode scaling sends pixel (0,0) to guest (0,0) and
pixel (W,H) to guest (32768,32768); relative mode forwards the raw
deltas unscaled; and every pixel strictly inside the window scales into
the normalized range 0..32767. -/
theorem C5_mouse_scaling (W H x1 y1 dz : Int) (state : Nat)
    (hW : 0 < W) (hH : 0 < H) :
    sdl_send_mouse_event W H 0 0 dz state true =
      GuestEvent.mouse 0 0 dz (mouse_buttons state) ∧
    sdl_send_mouse_event W H W H dz state true =
      GuestEvent.mouse 32768 32768 dz (mouse_buttons state) ∧
    sdl_send_mouse_event W H x1 y1 dz state false =
      GuestEvent.mouse x1 y1 dz (mouse_buttons state) ∧
    (0 ≤ x1 → x1 < W →
      0 ≤ (sdl_send_mouse_event W H x1 y1 dz state true).mouseX ∧
      (sdl_send_mouse_event W H x1 y1 dz state true).mouseX ≤ 32767) := by
  refine ⟨?_, ?_, ?_, ?_⟩
  · simp [sdl_send_mouse_event, Int.zero_tdiv]
  · simp only [sdl_send_mouse_event, if_pos]
    rw [Int.mul_tdiv_cancel_left 32768 (by omega),
        Int.mul_tdiv_cancel_left 32768 (by omega)]
  · simp [sdl_send_mouse_event]
  · intro hx hlt
    simp only [sdl_send_mouse_event, GuestEvent.mouseX, if_pos]
    obtain ⟨m, rfl⟩ := Int.eq_ofNat_of_zero_le hx
    obtain ⟨w, rfl⟩ := Int.eq_ofNat_of_zero_le (le_of_lt hW)
    have hw : 0 < w := by exact_mod_cast hW
    have hm : m < w := by exact_mod_cast hlt
    have hcast : (m : Int) * 32768 = ((m * 32768 : Nat) : Int) := by
      push_cast
      ring
    rw [hcast, ← Int.ofNat_tdiv]
    constructor
    · exact_mod_cast Nat.zero_le _
    · have h1 : m * 32768 / w < 32768 := by
        rw [Nat.div_lt_iff_lt_mul hw]
        have := (Nat.mul_lt_mul_right (show 0 < 32768 by norm_num)).mpr hm
        omega
      exact_mod_cast Nat.lt_succ_iff.mp (by omega)

theorem C5_mouse_scaling_witness :
    sdl_send_mouse_event 640 480 0 0 2 1 true =
      GuestEvent.mouse 0 0 2 (mouse_buttons 1) ∧
    sdl_send_mouse_event 640 480 640 480 2 1 true =
      GuestEvent.mouse 32768 32768 2 (mouse_buttons 1) ∧
    sdl_send_mouse_event 640 480 10 20 2 1 false =
      GuestEvent.mouse 10 20 2 (mouse_buttons 1) ∧
    (0 ≤ (10 : Int) → (10 : Int) < 640 →
      0 ≤ (sdl_send_mouse_event 640 480 10 20 2 1 true).mouseX ∧
      (sdl_send_mouse_event 640 480 10 20 2 1 true).mouseX ≤ 32767) :=
  C5_mouse_scaling 640 480 10 20 2 1 (by decide) (by decide)

/-! ### The audio tone generator -/

/-- The macro `AMPLITUDE`, defined as 8000. -/
def AMPLITUDE : ℝ := 8000

/-- The tone-generator state: the control-path frequency `beepfreq` and
the phase accumulator `v` (a C `static double` owned by the audio
callback). -/
structure ToneState where
  beepfreq : ℝ
  v : ℝ

/-- Function `beep(freq)` (the spec's `set_tone`): store the new frequency under
the audio lock; the phase accumulator is untouched. -/
def beep (freq : ℝ) (st : ToneState) : ToneState :=
  { st with beepfreq := freq }

/-- The generation loop of `audio_callback`, producing `length`
samples: each sample is `AMPLITUDE * sin(v * 2 * pi / rate)` and the
phase `v` then advances by `beepfreq`.  The C code computes in `double`
(modelled as exact reals) and truncates each sample to `Sint16`; the
sample values reached in the proof below (0 and 8000) are unaffected by
that truncation. -/
noncomputable def audio_callback (rate : ℝ) : Nat → ToneState → List ℝ × ToneState
  | 0, st => ([], st)
  | n + 1, st =>
    let sample := AMPLITUDE * Real.sin (st.v * 2 * Real.pi / rate)
    let rest := audio_callback rate n { st with v := st.v + st.beepfreq }
    (sample :: rest.1, rest.2)

/-- C6 fails on the code: after `beep 0` (the spec's `set_tone(0)`) the
next callback invocation does **not** fill the buffer with zeros for
every value of the phase accumulator — the phase is left where it was,
so at phase 11025 with sample rate 44100 (a quarter period) the
generated sample is `AMPLITUDE * sin(pi/2) = 8000`, not 0. -/
theorem C6_set_tone_zero_not_silent :
    (audio_callback 44100 1 (beep 0 ⟨440, 11025⟩)).1 = [8000] ∧
    (8000 : ℝ) ≠ 0 := by
  constructor
  · have harg : (11025 : ℝ) * 2 * Real.pi / 44100 = Real.pi / 2 := by
      ring
    simp only [audio_callback, beep]
    rw [harg, Real.sin_pi_div_two]
    norm_num [AMPLITUDE]
  · norm_num

/-! ### The framebuffer presenter -/

/-- The geometry fields of `FBDevice` that `sdl_update_fb_surface`
reads (`fb_data` is only passed through to the surface). -/
structure FBDevice where
  width : Int
  height : Int
  stride : Int
deriving DecidableEq, Repr

/-- The presenter's global state: the current `fb_surface`, `renderer`
and `texture` (as optional host handle ids), the cached geometry
`fb_width`/`fb_height`/`fb_stride`, a fresh-handle counter standing for
the host allocator, and the lists of handles the driver has explicitly
released.  The code calls `SDL_FreeSurface` on surfaces but never calls
`SDL_DestroyRenderer` or `SDL_DestroyTexture`. -/
structure SdlState where
  fb_surface : Option Nat
  renderer : Option Nat
  texture : Option Nat
  fb_width : Int
  fb_height : Int
  fb_stride : Int
  next_id : Nat
  freed_surfaces : List Nat
  destroyed_renderers : List Nat
  destroyed_textures : List Nat
deriving DecidableEq, Repr

/-- Function `sdl_update_fb_surface`: if no surface exists or the cached
geometry differs from the device's, free the current surface (only),
cache the new geometry, then create a new surface viewing the guest
framebuffer, a new renderer, and a new texture, in that order;
`Except.error 1` models `exit(1)` after the diagnostic when a creation
fails.  `oracle h` tells whether the host library succeeds in creating
handle `h`. -/
def sdl_update_fb_surface (oracle : Nat → Bool) (dev : FBDevice)
    (s : SdlState) : Except Nat SdlState :=
  if s.fb_surface = none ∨ s.fb_width ≠ dev.width ∨ s.fb_height ≠ dev.height ∨
      s.fb_stride ≠ dev.stride then
    let freed := match s.fb_surface with
      | some id => s.freed_surfaces ++ [id]
      | none => s.freed_surfaces
    if oracle s.next_id then
      if oracle (s.next_id + 1) then
        if oracle (s.next_id + 2) then
          Except.ok { fb_surface := some s.next_id,
                      renderer := some (s.next_id + 1),
                      texture := some (s.next_id + 2),
                      fb_width := dev.width,
                      fb_height := dev.height,
                      fb_stride := dev.stride,
                      next_id := s.next_id + 3,
                      freed_surfaces := freed,
                      destroyed_renderers := s.destroyed_renderers,
                      destroyed_textures := s.destroyed_textures }
        else
          Except.error 1
      else
        Except.error 1
    else
      Except.error 1
  else
    Except.ok s

/-- The release discipline claim C7 asserts, following the spec's
words: whenever the geometry changed and resources exist, the old
surface, renderer and texture are all released. -/
def releasesAllResources (oracle : Nat → Bool) (dev : FBDevice) (s : SdlState) : Prop :=
  ∀ s2 sid rid tid,
    sdl_update_fb_surface oracle dev s = Except.ok s2 →
    s.fb_surface = some sid → s.renderer = some rid → s.texture = some tid →
    (s.fb_width ≠ dev.width ∨ s.fb_height ≠ dev.height ∨ s.fb_stride ≠ dev.stride) →
    sid ∈ s2.freed_surfaces ∧ rid ∈ s2.destroyed_renderers ∧
      tid ∈ s2.destroyed_textures

/-- C7 as stated is false on the code: on a geometry change (640x480
to 800x600) with all three resources present, only the old surface is
freed — the old renderer and texture are never destroyed. -/
theorem C7_release_together_counterexample :
    ¬ releasesAllResources (fun _ => true) ⟨800, 600, 3200⟩
        ⟨some 0, some 1, some 2, 640, 480, 2560, 3, [], [], []⟩ := by
  intro h
  have h2 := h ⟨some 3, some 4, some 5, 800, 600, 3200, 6, [0], [], []⟩ 0 1 2
    rfl rfl rfl rfl (by norm_num)
  exact absurd h2.2.1 (by decide)

/-- C7 amended: whenever the cached geometry differs from the device's
or no surface exists yet, the driver frees exactly the old surface (the
old renderer and texture are abandoned, not destroyed) and then creates
a fresh surface, renderer and texture; if all three creations succeed
the cached geometry equals the device's and all three resources are
valid, and if any creation fails the process exits with status 1 after
a diagnostic. -/
theorem C7_resource_recreation (oracle : Nat → Bool) (dev : FBDevice)
    (s : SdlState)
    (hneed : s.fb_surface = none ∨ s.fb_width ≠ dev.width ∨
      s.fb_height ≠ dev.height ∨ s.fb_stride ≠ dev.stride) :
    (oracle s.next_id = true → oracle (s.next_id + 1) = true →
      oracle (s.next_id + 2) = true →
      sdl_update_fb_surface oracle dev s =
        Except.ok { fb_surface := some s.next_id,
                    renderer := some (s.next_id + 1),
                    texture := some (s.next_id + 2),
                    fb_width := dev.width,
                    fb_height := dev.height,
                    fb_stride := dev.stride,
                    next_id := s.next_id + 3,
                    freed_surfaces := s.freed_surfaces ++ s.fb_surface.toList,
                    destroyed_renderers := s.destroyed_renderers,
                    destroyed_textures := s.destroyed_textures }) ∧
    ((oracle s.next_id = false ∨ oracle (s.next_id + 1) = false ∨
        oracle (s.next_id + 2) = false) →
      sdl_update_fb_surface oracle dev s = Except.error 1) := by
  constructor
  · intro h0 h1 h2
    rw [sdl_update_fb_surface, if_pos hneed]
    rw [h0, h1, h2]
    simp only [if_true]
    cases hs : s.fb_surface with
    | none => simp [hs]
    | some sid => simp [hs]
  · intro hfail
    rw [sdl_update_fb_surface, if_pos hneed]
    rcases hfail with h | h | h
    · rw [h]
      simp
    · cases h0 : oracle s.next_id with
      | false => simp
      | true => rw [h]; simp
    · cases h0 : oracle s.next_id with
      | false => simp
      | true =>
        cases h1 : oracle (s.next_id + 1) with
        | false => simp
        | true => rw [h]; simp

theorem C7_resource_recreation_witness :
    sdl_update_fb_surface (fun _ => true) ⟨800, 600, 3200⟩
        ⟨some 0, some 1, some 2, 640, 480, 2560, 3, [], [], []⟩ =
      Except.ok ⟨some 3, some 4, some 5, 800, 600, 3200, 6, [0], [], []⟩ ∧
    sdl_update_fb_surface (fun _ => false) ⟨800, 600, 3200⟩
        ⟨some 0, some 1, some 2, 640, 480, 2560, 3, [], [], []⟩ =
      Except.error 1 := by
  constructor
  · have h := (C7_resource_recreation (fun _ => true) ⟨800, 600, 3200⟩
      ⟨some 0, some 1, some 2, 640, 480, 2560, 3, [], [], []⟩
      (by norm_num)).1 rfl rfl rfl
    exact h.trans rfl
  · exact (C7_resource_recreation (fun _ => false) ⟨800, 600, 3200⟩
      ⟨some 0, some 1, some 2, 640, 480, 2560, 3, [], [], []⟩
      (by norm_num)).2 (Or.inl rfl)

/-! ### The refresh driver -/

/-- A dirty rectangle the guest device reports through its `refresh`
callback (the `SDL_Rect` built in `sdl_update`). -/
structure Rect where
  x : Int
  y : Int
  w : Int
  h : Int
deriving DecidableEq, Repr

/-- A pending host event, as classified by the `switch` in
`sdl_refresh`.  `other` covers every event type the switch has no case
for (including mouse wheel events). -/
inductive HostEvent where
  | keydown (sc : Nat)
  | keyup (sc : Nat)
  | mousemotion (ev : MouseMotionEvent)
  | mousebuttondown
  | mousebuttonup
  | quit
  | other
deriving DecidableEq, Repr

/-- One observable step of a refresh tick: render-resource
synchronization, one presenter invocation for a dirty rectangle, or one
host event dequeued and dispatched. -/
inductive RefreshAction where
  | ensure
  | present (r : Rect)
  | handled (ev : HostEvent)
deriving DecidableEq, Repr

/-- The `switch` body of the event loop in `sdl_refresh`: dispatch one
dequeued host event.  Key events go to `sdl_handle_key_event`, motion
events to `sdl_handle_mouse_motion_event`; button press/release events
and unrecognized events do nothing; `SDL_QUIT` calls `exit(0)`
(`Except.error 0`).  Returns the new `key_pressed` state and the guest
events sent. -/
def handle_host_event (screen_width screen_height : Int) (is_absolute : Bool)
    (ev : HostEvent) (kp : Nat → Bool) :
    Except Nat ((Nat → Bool) × List GuestEvent) :=
  match ev with
  | .keydown sc => Except.ok (sdl_handle_key_event ⟨true, sc⟩ kp)
  | .keyup sc => Except.ok (sdl_handle_key_event ⟨false, sc⟩ kp)
  | .mousemotion m =>
      Except.ok (kp,
        [sdl_handle_mouse_motion_event screen_width screen_height is_absolute m])
  | .mousebuttondown => Except.ok (kp, [])
  | .mousebuttonup => Except.ok (kp, [])
  | .quit => Except.error 0
  | .other => Except.ok (kp, [])

/-- The `while (SDL_PollEvent(ev))` loop of `sdl_refresh`: dequeue and
dispatch host events until none remain, accumulating the guest events
sent and one `handled` action per dequeued event; `exit` aborts the
loop and the process. -/
def drain_events (screen_width screen_height : Int) (is_absolute : Bool) :
    List HostEvent → (Nat → Bool) →
    Except Nat ((Nat → Bool) × List GuestEvent × List RefreshAction)
  | [], kp => Except.ok (kp, [], [])
  | ev :: rest, kp =>
    match handle_host_event screen_width screen_height is_absolute ev kp with
    | .error c => Except.error c
    | .ok r =>
      match drain_events screen_width screen_height is_absolute rest r.1 with
      | .error c => Except.error c
      | .ok r2 =>
          Except.ok (r2.1, r.2 ++ r2.2.1, RefreshAction.handled ev :: r2.2.2)

/-- The machine fields `sdl_refresh` reads: the optional framebuffer
device — its geometry together with the dirty rectangles its `refresh`
callback reports this tick — and the VM-reported pointer mode. -/
structure VirtMachine where
  fb_dev : Option (FBDevice × List Rect)
  mouse_absolute : Bool

/-- Function `sdl_refresh`: return immediately when no framebuffer device is
configured; otherwise synchronize render resources with the device
geometry (`sdl_update_fb_surface`), let the device invoke the presenter
for each dirty rectangle, then drain the host event queue.
`Except.error c` models `exit(c)`.  Returns the new presenter state and
`key_pressed` state, the guest events sent, and the ordered action
trace of the tick. -/
def sdl_refresh (oracle : Nat → Bool) (screen_width screen_height : Int)
    (m : VirtMachine) (sdl : SdlState) (kp : Nat → Bool)
    (queue : List HostEvent) :
    Except Nat (SdlState × (Nat → Bool) × List GuestEvent × List RefreshAction) :=
  match m.fb_dev with
  | none => Except.ok (sdl, kp, [], [])
  | some dd =>
    match sdl_update_fb_surface oracle dd.1 sdl with
    | .error c => Except.error c
    | .ok sdl2 =>
      match drain_events screen_width screen_height m.mouse_absolute queue kp with
      | .error c => Except.error c
      | .ok r =>
        Except.ok (sdl2, r.1, r.2.1,
          RefreshAction.ensure :: dd.2.map RefreshAction.present ++ r.2.2)

/-- A completed drain dispatches exactly the queued events, in queue
order. -/
theorem drain_events_acts (W H : Int) (mabs : Bool) (queue : List HostEvent)
    (kp : Nat → Bool) (r : (Nat → Bool) × List GuestEvent × List RefreshAction)
    (h : drain_events W H mabs queue kp = Except.ok r) :
    r.2.2 = queue.map RefreshAction.handled := by
  induction queue generalizing kp r with
  | nil =>
    rw [drain_events] at h
    cases h
    rfl
  | cons ev rest ih =>
    rw [drain_events] at h
    split at h
    · cases h
    · split at h
      · cases h
      · rename_i r2 hd
        cases h
        simp [ih _ _ hd]

/-- C8: with no framebuffer device the refresh entry point is a no-op
(state unchanged, no resources touched, no events drained, no guest
events emitted); with a device, a tick whose drain completes performs,
in strict order, resource synchronization, one present per reported
dirty rectangle (in report order), then one dispatch per pending host
event (in queue order) until none remain. -/
theorem C8_refresh_tick_order (oracle : Nat → Bool) (W H : Int) (mabs : Bool)
    (dev : FBDevice) (dirty : List Rect) (sdl sdl2 : SdlState)
    (kp : Nat → Bool) (queue : List HostEvent)
    (r : (Nat → Bool) × List GuestEvent × List RefreshAction) :
    (sdl_refresh oracle W H ⟨none, mabs⟩ sdl kp queue =
      Except.ok (sdl, kp, [], [])) ∧
    (sdl_update_fb_surface oracle dev sdl = Except.ok sdl2 →
     drain_events W H mabs queue kp = Except.ok r →
     sdl_refresh oracle W H ⟨some (dev, dirty), mabs⟩ sdl kp queue =
       Except.ok (sdl2, r.1, r.2.1,
         RefreshAction.ensure :: dirty.map RefreshAction.present ++
           queue.map RefreshAction.handled)) := by
  constructor
  · rfl
  · intro hupd hdrain
    have hacts := drain_events_acts W H mabs queue kp r hdrain
    rw [sdl_refresh]
    simp only []
    rw [hupd, hdrain, ← hacts]

theorem C8_refresh_tick_order_witness :
    sdl_refresh (fun _ => true) 640 480 ⟨none, true⟩
      ⟨none, none, none, 0, 0, 0, 0, [], [], []⟩ initKeys
      [HostEvent.mousebuttondown] =
      Except.ok (⟨none, none, none, 0, 0, 0, 0, [], [], []⟩, initKeys, [], []) ∧
    sdl_refresh (fun _ => true) 640 480
      ⟨some (⟨640, 480, 2560⟩, [⟨0, 0, 16, 16⟩]), true⟩
      ⟨none, none, none, 0, 0, 0, 0, [], [], []⟩ initKeys
      [HostEvent.mousemotion ⟨100, 50, 3, 4, 1⟩, HostEvent.mousebuttondown] =
      Except.ok (⟨some 0, some 1, some 2, 640, 480, 2560, 3, [], [], []⟩,
        initKeys, [GuestEvent.mouse 5120 3413 0 1],
        [RefreshAction.ensure, RefreshAction.present ⟨0, 0, 16, 16⟩,
         RefreshAction.handled (HostEvent.mousemotion ⟨100, 50, 3, 4, 1⟩),
         RefreshAction.handled HostEvent.mousebuttondown]) := by
  constructor
  · exact (C8_refresh_tick_order (fun _ => true) 640 480 true ⟨640, 480, 2560⟩ []
      ⟨none, none, none, 0, 0, 0, 0, [], [], []⟩
      ⟨none, none, none, 0, 0, 0, 0, [], [], []⟩ initKeys
      [HostEvent.mousebuttondown] (initKeys, [], [])).1
  · have h := (C8_refresh_tick_order (fun _ => true) 640 480 true ⟨640, 480, 2560⟩
      [⟨0, 0, 16, 16⟩] ⟨none, none, none, 0, 0, 0, 0, [], [], []⟩
      ⟨some 0, some 1, some 2, 640, 480, 2560, 3, [], [], []⟩ initKeys
      [HostEvent.mousemotion ⟨100, 50, 3, 4, 1⟩, HostEvent.mousebuttondown]
      (initKeys, [GuestEvent.mouse 5120 3413 0 1],
       [RefreshAction.handled (HostEvent.mousemotion ⟨100, 50, 3, 4, 1⟩),
        RefreshAction.handled HostEvent.mousebuttondown])).2 rfl rfl
    exact h.trans rfl

/-- A quit event anywhere in the queue aborts the drain with
`exit(0)`, whatever follows it. -/
theorem drain_events_quit (W H : Int) (mabs : Bool) (pre post : List HostEvent)
    (kp : Nat → Bool) (hpre : HostEvent.quit ∉ pre) :
    drain_events W H mabs (pre ++ HostEvent.quit :: post) kp =
      Except.error 0 := by
  induction pre generalizing kp with
  | nil => rfl
  | cons ev pre ih =>
    have hev : ev ≠ HostEvent.quit := fun h =>
      hpre (h ▸ List.mem_cons_self ev pre)
    have hpre2 : HostEvent.quit ∉ pre := fun h =>
      hpre (List.mem_cons_of_mem _ h)
    cases ev with
    | quit => exact absurd rfl hev
    | keydown sc =>
      simp only [List.cons_append, List.append_eq, drain_events, handle_host_event]
      rw [ih _ hpre2]
    | keyup sc =>
      simp only [List.cons_append, List.append_eq, drain_events, handle_host_event]
      rw [ih _ hpre2]
    | mousemotion m =>
      simp only [List.cons_append, List.append_eq, drain_events, handle_host_event]
      rw [ih _ hpre2]
    | mousebuttondown =>
      simp only [List.cons_append, List.append_eq, drain_events, handle_host_event]
      rw [ih _ hpre2]
    | mousebuttonup =>
      simp only [List.cons_append, List.append_eq, drain_events, handle_host_event]
      rw [ih _ hpre2]
    | other =>
      simp only [List.cons_append, List.append_eq, drain_events, handle_host_event]
      rw [ih _ hpre2]

/-- C9: when the drain phase dequeues a host quit event, the tick
aborts at once with `exit(0)`: the result is exit status 0 no matter
what events were still queued behind it, so none of them are processed
and no further tick occurs. -/
theorem C9_quit_exits (oracle : Nat → Bool) (W H : Int) (mabs : Bool)
    (dev : FBDevice) (dirty : List Rect) (sdl sdl2 : SdlState)
    (kp : Nat → Bool) (pre post : List HostEvent)
    (hpre : HostEvent.quit ∉ pre)
    (hupd : sdl_update_fb_surface oracle dev sdl = Except.ok sdl2) :
    sdl_refresh oracle W H ⟨some (dev, dirty), mabs⟩ sdl kp
        (pre ++ HostEvent.quit :: post) = Except.error 0 := by
  rw [sdl_refresh]
  simp only []
  rw [hupd, drain_events_quit W H mabs pre post kp hpre]

theorem C9_quit_exits_witness :
    sdl_refresh (fun _ => true) 640 480
      ⟨some (⟨640, 480, 2560⟩, [⟨0, 0, 16, 16⟩]), true⟩
      ⟨none, none, none, 0, 0, 0, 0, [], [], []⟩ initKeys
      ([HostEvent.mousebuttonup] ++ HostEvent.quit ::
        [HostEvent.keydown SDL_SCANCODE_A]) = Except.error 0 :=
  C9_quit_exits (fun _ => true) 640 480 true ⟨640, 480, 2560⟩ [⟨0, 0, 16, 16⟩]
    ⟨none, none, none, 0, 0, 0, 0, [], [], []⟩
    ⟨some 0, some 1, some 2, 640, 480, 2560, 3, [], [], []⟩ initKeys
    [HostEvent.mousebuttonup] [HostEvent.keydown SDL_SCANCODE_A]
    (by decide) rfl

/-- A guest event carries a zero wheel delta (vacuously true for key
events). -/
def wheelZero : GuestEvent → Prop
  | .mouse _ _ dz _ => dz = 0
  | .key _ _ => True

/-- Every event the key handler emits is a key event, hence carries no
wheel delta. -/
theorem sdl_handle_key_event_wheelZero (ev : KeyboardEvent) (kp : Nat → Bool) :
    ∀ e ∈ (sdl_handle_key_event ev kp).2, wheelZero e := by
  intro e he
  simp only [sdl_handle_key_event] at he
  split at he
  · split at he
    · simp at he
      rcases he with h | h <;> subst h <;> exact trivial
    · simp at he
      subst he
      exact trivial
  · split at he
    · rw [sdl_reset_keys,
        foldl_resetStep _ (List.nodup_range' 1 (NR_KEYS - 1)) kp []] at he
      simp at he
      obtain ⟨i, -, rfl⟩ := he
      exact trivial
    · simp at he

/-- The motion handler always passes a zero wheel delta. -/
theorem sdl_handle_mouse_motion_event_wheelZero (W H : Int) (mabs : Bool)
    (m : MouseMotionEvent) :
    wheelZero (sdl_handle_mouse_motion_event W H mabs m) := by
  cases mabs <;>
    simp [sdl_handle_mouse_motion_event, sdl_send_mouse_event, wheelZero]

/-- No dispatched host event produces a guest event with a non-zero
wheel delta. -/
theorem handle_host_event_wheelZero (W H : Int) (mabs : Bool) (ev : HostEvent)
    (kp : Nat → Bool) (r : (Nat → Bool) × List GuestEvent)
    (h : handle_host_event W H mabs ev kp = Except.ok r) :
    ∀ e ∈ r.2, wheelZero e := by
  intro e he
  cases ev with
  | keydown sc =>
    simp only [handle_host_event] at h
    cases h
    exact sdl_handle_key_event_wheelZero _ _ e he
  | keyup sc =>
    simp only [handle_host_event] at h
    cases h
    exact sdl_handle_key_event_wheelZero _ _ e he
  | mousemotion m =>
    simp only [handle_host_event] at h
    cases h
    simp at he
    subst he
    exact sdl_handle_mouse_motion_event_wheelZero W H mabs m
  | mousebuttondown =>
    simp only [handle_host_event] at h
    cases h
    simp at he
  | mousebuttonup =>
    simp only [handle_host_event] at h
    cases h
    simp at he
  | quit =>
    simp only [handle_host_event] at h
    cases h
  | other =>
    simp only [handle_host_event] at h
    cases h
    simp at he

/-- No guest event delivered during an event drain carries a non-zero
wheel delta. -/
theorem drain_events_wheelZero (W H : Int) (mabs : Bool)
    (queue : List HostEvent) (kp : Nat → Bool)
    (r : (Nat → Bool) × List GuestEvent × List RefreshAction)
    (h : drain_events W H mabs queue kp = Except.ok r) :
    ∀ e ∈ r.2.1, wheelZero e := by
  induction queue generalizing kp r with
  | nil =>
    rw [drain_events] at h
    cases h
    intro e he
    simp at he
  | cons ev rest ih =>
    rw [drain_events] at h
    split at h
    · cases h
    · rename_i r1 hh
      split at h
      · cases h
      · rename_i r2 hd
        cases h
        intro e he
        simp at he
        rcases he with he | he
        · exact handle_host_event_wheelZero W H mabs ev kp r1 hh e he
        · exact ih _ _ hd e he

/-- C10: every mouse event delivered to the guest carries a zero wheel
delta — the drain loop has no case for host wheel events (discarded
along with button press/release events) and the motion handler always
forwards `dz = 0` — so no refresh tick can emit a guest mouse event
with a non-zero wheel delta. -/
theorem C10_wheel_delta_always_zero (oracle : Nat → Bool) (W H : Int)
    (m : VirtMachine) (sdl : SdlState) (kp : Nat → Bool)
    (queue : List HostEvent)
    (r : SdlState × (Nat → Bool) × List GuestEvent × List RefreshAction)
    (h : sdl_refresh oracle W H m sdl kp queue = Except.ok r) :
    ∀ e ∈ r.2.2.1, wheelZero e := by
  intro e he
  obtain ⟨fb, mabs⟩ := m
  cases fb with
  | none =>
    simp only [sdl_refresh] at h
    cases h
    simp at he
  | some dd =>
    simp only [sdl_refresh] at h
    split at h
    · cases h
    · split at h
      · cases h
      · rename_i sdl2 hupd r2 hd
        cases h
        simp at he
        exact drain_events_wheelZero W H mabs queue kp r2 hd e he

theorem C10_wheel_delta_always_zero_witness :
    wheelZero (GuestEvent.mouse 5120 3413 0 1) :=
  C10_wheel_delta_always_zero (fun _ => true) 640 480
    ⟨some (⟨640, 480, 2560⟩, [⟨0, 0, 16, 16⟩]), true⟩
    ⟨none, none, none, 0, 0, 0, 0, [], [], []⟩ initKeys
    [HostEvent.mousemotion ⟨100, 50, 3, 4, 1⟩]
    (⟨some 0, some 1, some 2, 640, 480, 2560, 3, [], [], []⟩,
      initKeys, [GuestEvent.mouse 5120 3413 0 1],
      [RefreshAction.ensure, RefreshAction.present ⟨0, 0, 16, 16⟩,
       RefreshAction.handled (HostEvent.mousemotion ⟨100, 50, 3, 4, 1⟩)])
    rfl (GuestEvent.mouse 5120 3413 0 1) (by simp)

end TinyEMU
